import Mathlib

/-!
Shallow embedding of `src/app.py`: a Flask application with two routes.

The process environment is modelled as a map from variable names to an
optional string value.  Each handler is a function from the environment to a
pair of an HTTP response and the (possibly updated) environment, so that
read-only behaviour and idempotence are provable facts rather than modelling
assumptions.  Route dispatch mirrors Flask routing: `@app.route` with no
`methods=` argument registers the view for GET (with the framework-implied
HEAD and OPTIONS); a known path with another method yields 405, an unknown
path yields 404.
-/

/-- The process environment: each variable name is either set (to a string,
possibly empty) or absent. -/
abbrev Env : Type := String → Option String

/-- `os.getenv(name, default)`: the value of the variable when set, else the
default. -/
def osGetenv (env : Env) (name dflt : String) : String :=
  (env name).getD dflt

/-- JSON values as they occur in the responses: strings, or null. -/
inductive JVal : Type where
  | jstr (s : String) : JVal
  | jnull : JVal
deriving DecidableEq

/-- HTTP methods relevant to the routes. -/
inductive Method : Type where
  | GET | HEAD | OPTIONS | POST | PUT | DELETE | PATCH
deriving DecidableEq

/-- An HTTP request: a method and a path. -/
structure Request : Type where
  method : Method
  path : String
deriving DecidableEq

/-- An HTTP response: a status code and a JSON object body, kept structured
as an ordered list of fields.  Framework error responses (404/405) carry no
JSON object, modelled as the empty field list. -/
structure Response : Type where
  status : Nat
  body : List (String × JVal)
deriving DecidableEq

/-- JSON string escaping for the serializer (quote and backslash). -/
def escapeChar (c : Char) : String :=
  if c = '"' then "\\\"" else if c = '\\' then "\\\\" else String.singleton c

/-- Escape every character of a string for JSON output. -/
def escapeString (s : String) : String :=
  String.join (s.toList.map escapeChar)

/-- A JSON string literal: the escaped text between double quotes. -/
def jstrLit (s : String) : String :=
  "\"" ++ escapeString s ++ "\""

/-- Serialize a single JSON value. -/
def serializeVal : JVal → String
  | JVal.jstr s => jstrLit s
  | JVal.jnull => "null"

/-- Serialize the comma-separated fields of a JSON object. -/
def serializeFields : List (String × JVal) → String
  | [] => ""
  | [(k, v)] => jstrLit k ++ ":" ++ serializeVal v
  | (k, v) :: rest => jstrLit k ++ ":" ++ serializeVal v ++ "," ++ serializeFields rest

/-- Serialize a JSON object to its byte representation (as a string),
as `jsonify` does when producing the response body. -/
def serializeObj (fs : List (String × JVal)) : String :=
  "\x7b" ++ serializeFields fs ++ "\x7d"

/-- The `hello` view function, registered at `/`:
reads `APP_VERSION` (default `"unknown"`) and returns a two-field JSON
object with status 200.  The environment is returned unchanged: the lookup
is read-only. -/
def hello (env : Env) : Response × Env :=
  let version := osGetenv env "APP_VERSION" "unknown"
  ({ status := 200,
     body := [("message", JVal.jstr "Hello from my app!"),
              ("version", JVal.jstr version)] }, env)

/-- The `health` view function, registered at `/health`:
returns `{"status": "healthy"}` with status 200, touching nothing. -/
def health (env : Env) : Response × Env :=
  ({ status := 200, body := [("status", JVal.jstr "healthy")] }, env)

/-- The methods Flask accepts for a route registered with a bare
`@app.route`: GET plus the framework-implied HEAD and OPTIONS. -/
def allowedMethods : List Method :=
  [Method.GET, Method.HEAD, Method.OPTIONS]

/-- Flask dispatch over the two registered rules: `/` to `hello` and
`/health` to `health`; a known path with a method outside the registered
set gets 405, an unknown path gets 404. -/
def dispatch (env : Env) (req : Request) : Response × Env :=
  if req.path = "/" then
    if req.method ∈ allowedMethods then hello env
    else ({ status := 405, body := [] }, env)
  else if req.path = "/health" then
    if req.method ∈ allowedMethods then health env
    else ({ status := 405, body := [] }, env)
  else ({ status := 404, body := [] }, env)

/-- The server configuration passed to `app.run`. -/
structure ServerConfig : Type where
  host : String
  port : Nat
deriving DecidableEq

/-- The `if __name__ == '__main__'` startup block: `app.run` with host
`0.0.0.0` and port `8080`, regardless of the command line (no CLI flags are
consumed). -/
def mainStartup (_argv : List String) : ServerConfig :=
  { host := "0.0.0.0", port := 8080 }

/-- An environment with no variable set. -/
def envEmpty : Env := fun _ => none

/-- An environment in which `APP_VERSION` is set to the empty string and
nothing else is set. -/
def envEmptyVersion : Env :=
  fun n => if n = "APP_VERSION" then some "" else none

/-- Shared helper: dispatching any request leaves the environment
unchanged. -/
theorem dispatch_preserves_env (env : Env) (req : Request) :
    (dispatch env req).2 = env := by
  unfold dispatch hello health
  repeat' split
  all_goals rfl

/-- Claim C1: for every environment, a GET to `/` returns status 200 with a
JSON object of exactly two string fields: `message` equal to
"Hello from my app!" and `version` equal to the value of `APP_VERSION` when
set, else "unknown". -/
theorem C1_get_root (env : Env) :
    (dispatch env { method := Method.GET, path := "/" }).1.status = 200 ∧
    (dispatch env { method := Method.GET, path := "/" }).1.body =
      [("message", JVal.jstr "Hello from my app!"),
       ("version", JVal.jstr ((env "APP_VERSION").getD "unknown"))] :=
  ⟨rfl, rfl⟩

/-- Claim C2: for every environment, a GET to `/health` returns status 200
with body exactly the one-field object `status = "healthy"`; the handler
consults no environment variable, so the response is one and the same for
all environments. -/
theorem C2_get_health (env : Env) :
    (dispatch env { method := Method.GET, path := "/health" }).1 =
      { status := 200, body := [("status", JVal.jstr "healthy")] } :=
  rfl

/-- Claim C3: for every environment, a GET to any path other than `/` and
`/health` returns HTTP 404, which is not a 2xx status. -/
theorem C3_unknown_path_404 (env : Env) (p : String)
    (h1 : p ≠ "/") (h2 : p ≠ "/health") :
    (dispatch env { method := Method.GET, path := p }).1.status = 404 ∧
    ¬ (200 ≤ (dispatch env { method := Method.GET, path := p }).1.status ∧
       (dispatch env { method := Method.GET, path := p }).1.status < 300) := by
  simp [dispatch, h1, h2]

/-- Witness for C3 at the concrete path `/nonexistent`. -/
theorem C3_unknown_path_404_witness :
    (dispatch envEmpty { method := Method.GET, path := "/nonexistent" }).1.status = 404 :=
  (C3_unknown_path_404 envEmpty "/nonexistent" (by decide) (by decide)).1

/-- Claim C4: with the environment as it stands after a first request, a
second identical request produces a byte-identical serialized JSON body
(and in fact an identical response): the handlers are deterministic
functions of the environment alone and leave it unchanged. -/
theorem C4_repeated_requests_identical (env : Env) (req : Request) :
    serializeObj (dispatch (dispatch env req).2 req).1.body =
      serializeObj (dispatch env req).1.body ∧
    (dispatch (dispatch env req).2 req).1 = (dispatch env req).1 := by
  rw [dispatch_preserves_env]
  exact ⟨rfl, rfl⟩

/-- Claim C5: when `APP_VERSION` is set to the empty string, a GET to `/`
returns status 200 with the `version` field equal to the empty string, not
"unknown": the default applies only when the variable is absent. -/
theorem C5_empty_version_not_defaulted (env : Env)
    (h : env "APP_VERSION" = some "") :
    (dispatch env { method := Method.GET, path := "/" }).1.status = 200 ∧
    ((dispatch env { method := Method.GET, path := "/" }).1.body).lookup "version" =
      some (JVal.jstr "") := by
  refine ⟨rfl, ?_⟩
  simp [dispatch, hello, allowedMethods, osGetenv, h, List.lookup]

/-- Witness for C5 at a concrete environment in which `APP_VERSION` is set
to the empty string. -/
theorem C5_empty_version_not_defaulted_witness :
    (dispatch envEmptyVersion { method := Method.GET, path := "/" }).1.status = 200 ∧
    ((dispatch envEmptyVersion { method := Method.GET, path := "/" }).1.body).lookup "version" =
      some (JVal.jstr "") :=
  C5_empty_version_not_defaulted envEmptyVersion rfl

/-- Claim C6: handling any request leaves the process environment
unchanged: the only effect is the returned response, and the version lookup
is read-only. -/
theorem C6_no_side_effects (env : Env) (req : Request) :
    (dispatch env req).2 = env :=
  dispatch_preserves_env env req

/-- Claim C7: the startup block runs the server on host 0.0.0.0 and port
8080, for every command line: no CLI flags are consumed. -/
theorem C7_startup_binding (argv : List String) :
    mainStartup argv = { host := "0.0.0.0", port := 8080 } :=
  rfl

/-- Claim C8: for every environment both handlers return a response (they
are total functions): `hello` and `health` return status 200, and the
`version` field of the `hello` body is always a JSON string (never null). -/
theorem C8_handlers_total (env : Env) :
    (hello env).1.status = 200 ∧
    (health env).1.status = 200 ∧
    ∃ s : String, ((hello env).1.body).lookup "version" = some (JVal.jstr s) :=
  ⟨rfl, rfl, osGetenv env "APP_VERSION" "unknown", rfl⟩

/-- Claim C9: the two routes are registered for GET (plus the
framework-implied HEAD and OPTIONS) only, so any other method such as POST
receives HTTP 405 on both `/` and `/health`. -/
theorem C9_method_not_allowed (env : Env) (m : Method)
    (hm : m ∉ allowedMethods) :
    (dispatch env { method := m, path := "/" }).1.status = 405 ∧
    (dispatch env { method := m, path := "/health" }).1.status = 405 := by
  simp [dispatch, hm]

/-- Witness for C9 at the concrete method POST. -/
theorem C9_method_not_allowed_witness :
    (dispatch envEmpty { method := Method.POST, path := "/" }).1.status = 405 ∧
    (dispatch envEmpty { method := Method.POST, path := "/health" }).1.status = 405 :=
  C9_method_not_allowed envEmpty Method.POST (by decide)
